import Mathlib

/-!
Shallow embedding of the `jvc_projector` client library
(`src/jvc_projector/jvcprojector.py` and `src/jvc_projector/jvccommands.py`).

Bytes are modelled as natural numbers, byte strings as `List Nat`.  The TCP
transport is modelled as a script of read chunks: the k-th call to
`reader.read(n)` returns the k-th chunk truncated to `n` bytes (a chunk
shorter than `n` models a short read; an exhausted script models EOF, where
`read` returns the empty byte string, exactly as in asyncio).  Writes are
accumulated in order.  Wall-clock times and durations are rationals.
-/

/-- A byte string: each element is one byte (0..255). -/
abbrev ByteSeq := List Nat

/-- The bytes of an ASCII string literal, e.g. `bstr "PJ_OK"`.  Mirrors a
Python `bytes` literal such as `b"PJ_OK"`. -/
def bstr (s : String) : ByteSeq := s.data.map Char.toNat

/-- `jvccommands.OPR = b"!\x89\x01"`, the operation command header. -/
def OPR : ByteSeq := bstr "!" ++ [137, 1]

/-- `jvccommands.REF = b"?\x89\x01"`, the reference (query) command header. -/
def REF : ByteSeq := bstr "?" ++ [137, 1]

/-- `jvccommands.RES = b"@\x89\x01"`, the response header. -/
def RES : ByteSeq := bstr "@" ++ [137, 1]

/-- `jvccommands.PACK = b"\x06\x89\x01"`, the projector-ack preamble. -/
def PACK : ByteSeq := 6 :: [137, 1]

/-- `JVC_GREETING = b"PJ_OK"` from `_async_send_command`. -/
def JVC_GREETING : ByteSeq := bstr "PJ_OK"

/-- `JVC_REQ = b"PJREQ"` from `_async_send_command`. -/
def JVC_REQ : ByteSeq := bstr "PJREQ"

/-- `JVC_ACK = b"PJACK"` from `_async_send_command`. -/
def JVC_ACK : ByteSeq := bstr "PJACK"

/-- The `Commands` enum of `jvccommands.py` as an association list from the
member name to its byte-payload value, entry for entry in source order. -/
def Commands.entries : List (String × ByteSeq) := [
  ("power_on", OPR ++ bstr "PW1\n"),
  ("power_off", OPR ++ bstr "PW0\n"),
  ("memory1", OPR ++ bstr "INML0\n"),
  ("memory2", OPR ++ bstr "INML1\n"),
  ("memory3", OPR ++ bstr "INML2\n"),
  ("memory4", OPR ++ bstr "INML3\n"),
  ("memory5", OPR ++ bstr "INML4\n"),
  ("hdmi1", OPR ++ bstr "IP6\n"),
  ("hdmi2", OPR ++ bstr "IP7\n"),
  ("pm_cinema", OPR ++ bstr "PMPM01\n"),
  ("pm_hdr", OPR ++ bstr "PMPM04\n"),
  ("pm_natural", OPR ++ bstr "PMPM03\n"),
  ("pm_film", OPR ++ bstr "PMPM00\n"),
  ("pm_THX", OPR ++ bstr "PMPM06\n"),
  ("pm_user1", OPR ++ bstr "PMPM0C\n"),
  ("pm_user2", OPR ++ bstr "PMPM0D\n"),
  ("pm_user3", OPR ++ bstr "PMPM0E\n"),
  ("pm_user4", OPR ++ bstr "PMPM0F\n"),
  ("pm_user5", OPR ++ bstr "PMPM10\n"),
  ("pm_user6", OPR ++ bstr "PMPM11\n"),
  ("pm_hlg", OPR ++ bstr "PMPM14\n"),
  ("pm_low_latency_enable", OPR ++ bstr "PMLL1\n"),
  ("pm_low_latency_disable", OPR ++ bstr "PMLL0\n"),
  ("mask_off", OPR ++ bstr "ISMA2\n"),
  ("mask_custom1", OPR ++ bstr "ISMA0\n"),
  ("mask_custom2", OPR ++ bstr "ISMA1\n"),
  ("mask_custom3", OPR ++ bstr "ISMA3\n"),
  ("lamp_high", OPR ++ bstr "PMLP1\n"),
  ("lamp_low", OPR ++ bstr "PMLP0\n"),
  ("menu", OPR ++ bstr "RC732E\n"),
  ("menu_down", OPR ++ bstr "RC7302\n"),
  ("menu_left", OPR ++ bstr "RC7336\n"),
  ("menu_right", OPR ++ bstr "RC7334\n"),
  ("menu_up", OPR ++ bstr "RC7301\n"),
  ("menu_ok", OPR ++ bstr "RC732F\n"),
  ("menu_back", OPR ++ bstr "RC7303\n"),
  ("aperture_off", OPR ++ bstr "PMDI0\n"),
  ("aperture_auto1", OPR ++ bstr "PMDI1\n"),
  ("aperture_auto2", OPR ++ bstr "PMDI2\n"),
  ("anamorphic_off", OPR ++ bstr "INVS0\n"),
  ("anamorphic_a", OPR ++ bstr "INVS1\n"),
  ("anamorphic_b", OPR ++ bstr "INVS2\n"),
  ("anamorphic_c", OPR ++ bstr "INVS3\n"),
  ("get_mac", REF ++ bstr "LSMA\n"),
  ("model", REF ++ bstr "MD\n"),
  ("power_status", REF ++ bstr "PW\n"),
  ("current_input", REF ++ bstr "IP\n"),
  ("signal_active", REF ++ bstr "SC\n")]

/-- `Commands[name].value`: member lookup by name in the `Commands` enum
(`EnumMeta.__getitem__` consults only the member map and raises `KeyError`
otherwise — modelled by `none`). -/
def Commands.lookup (name : String) : Option ByteSeq :=
  Commands.entries.lookup name

/-- Attributes of the `Commands` enum class that are not enum members:
methods inherited from `type` (such as `mro`) and the names the class and
enum machinery define on every enum class.  `hasattr(Commands, a)` is true
for each of these, yet `Commands[a]` raises `KeyError`.  The Python
attribute set is open-ended; this list models a representative finite
sample of it (names outside both this list and the member map are treated
as absent attributes, for which `hasattr` is false). -/
def Commands.nonMemberAttrs : List String :=
  ["mro", "__doc__", "__members__", "__name__", "__qualname__",
   "__module__", "_member_map_", "_member_names_", "_value2member_map_"]

/-- `hasattr(Commands, name)`: true when `name` is an enum member or any
other attribute of the enum class. -/
def hasattrCommands (name : String) : Bool :=
  (Commands.lookup name).isSome || Commands.nonMemberAttrs.contains name

/-- `Commands.power_on.value = b"!\x89\x01PW1\n"`. -/
def cmd_power_on : ByteSeq := OPR ++ bstr "PW1\n"

/-- `Commands.power_off.value = b"!\x89\x01PW0\n"`. -/
def cmd_power_off : ByteSeq := OPR ++ bstr "PW0\n"

/-- `Commands.get_mac.value = b"?\x89\x01LSMA\n"`. -/
def cmd_get_mac : ByteSeq := REF ++ bstr "LSMA\n"

/-- `Commands.model.value = b"?\x89\x01MD\n"`. -/
def cmd_model : ByteSeq := REF ++ bstr "MD\n"

/-- `Commands.power_status.value = b"?\x89\x01PW\n"`. -/
def cmd_power_status : ByteSeq := REF ++ bstr "PW\n"

/-- The `Responses` enum of `jvccommands.py` as an association list from the
byte-string value to the member name (Python enum value lookup
`Responses(message)` resolves a value to its member; `.name` yields the
member name).  Note: `jvcprojector.py` line 19 imports this catalog under
the name `PowerStates`, but `jvccommands.py` defines it as `Responses`;
the embedding follows the catalog actually defined in the source. -/
def Responses.entries : List (ByteSeq × String) := [
  (RES ++ bstr "PW0\n", "standby"),
  (RES ++ bstr "PW2\n", "cooling"),
  (RES ++ bstr "PW4\n", "emergency"),
  (RES ++ bstr "PW1\n", "lamp_on"),
  (RES ++ bstr "PW3\n", "reserved"),
  (RES ++ bstr "IP6\n", "hdmi1"),
  (RES ++ bstr "IP7\n", "hdmi2"),
  (RES ++ bstr "SC0\n", "no_signal"),
  (RES ++ bstr "SC1\n", "active_signal")]

/-- Enum value lookup `Responses(message).name`: the member name whose value
equals `msg`, if any (enum values are distinct). -/
def Responses.decode (msg : ByteSeq) : Option String :=
  (Responses.entries.find? (fun p => p.1 == msg)).map Prod.snd

/-- The Python exceptions the client code can raise, plus the built-in
exceptions that escape it uncaught. -/
inductive PyError where
  /-- `JVCCannotConnectError`, raised for `ConnectionRefusedError`. -/
  | jvcCannotConnect
  /-- `JVCHandshakeError`, raised on a bad greeting or a missing PJACK. -/
  | jvcHandshake
  /-- `JVCCommunicationError`, raised on an ack mismatch or empty data. -/
  | jvcCommunication
  /-- `asyncio.TimeoutError` from `asyncio.wait_for`, not caught by the
  client (the `except` clause only catches `ConnectionRefusedError`). -/
  | asyncTimeout
  /-- `ValueError` from an enum value lookup that matches no member. -/
  | valueError
  /-- `UnicodeDecodeError` from `bytes.decode("ascii")` on non-ASCII. -/
  | unicodeDecodeError
  /-- `KeyError` from `Commands[name]` when `name` is an attribute of the
  enum class (so `hasattr` succeeded) but not an enum member. -/
  | keyError
deriving DecidableEq, Repr

/-- The fields of `JVCProjectorClient` set by `__init__`. -/
structure ClientState where
  host : String
  port : Nat
  connectTimeoutSeconds : ℚ
  delaySeconds : ℚ
  /-- `_last_command_time`, a wall-clock instant in seconds. -/
  lastCommandTime : ℚ
deriving DecidableEq, Repr

/-- `JVCProjectorClient.__init__(host, port, delay_seconds,
connect_timeout_seconds)` evaluated at wall-clock time `now`
(`self._last_command_time = datetime.now()`). -/
def initState (host : String) (port : Nat) (delaySeconds : ℚ)
    (connectTimeoutSeconds : ℚ) (now : ℚ) : ClientState :=
  ⟨host, port, connectTimeoutSeconds, delaySeconds, now⟩

/-- Outcome of `asyncio.wait_for(asyncio.open_connection(host, port),
timeout=connect_timeout_seconds)`. -/
inductive ConnectOutcome where
  | ok
  | refused
  | timedOut
deriving DecidableEq, Repr

/-- The environment of one exchange: what the connect attempt does, the
script of transport read chunks, and the wall-clock instants observed by
the two `datetime.now()` calls (inside `_throttle` and after the
exchange). -/
structure DeviceEnv where
  connect : ConnectOutcome
  reads : List ByteSeq
  nowAtThrottle : ℚ
  nowAtFinish : ℚ
deriving DecidableEq, Repr

/-- `reader.read(n)`: pops the next scripted chunk, truncated to at most `n`
bytes; at end of script (EOF) it returns the empty byte string. -/
def readChunk (n : Nat) (reads : List ByteSeq) : ByteSeq × List ByteSeq :=
  match reads with
  | [] => ([], [])
  | c :: rest => (c.take n, rest)

/-- `JVCProjectorClient._throttle` evaluated at wall-clock time `now`:
returns `some w` when it suspends for `w` seconds
(`asyncio.sleep(delay_seconds - delta)`), `none` when it returns without
suspending.  When `delay_seconds == 0` it returns before reading the
timestamp. -/
def throttleSleep (delaySeconds now lastCommandTime : ℚ) : Option ℚ :=
  if delaySeconds = 0 then
    none
  else
    let delta := now - lastCommandTime
    if delaySeconds > delta then some (delaySeconds - delta) else none

/-- `ack = b"\x06\x89\x01" + operation[3:5] + b"\x0A"` from
`_async_send_command`: the expected acknowledgement for a command. -/
def expectedAck (operation : ByteSeq) : ByteSeq :=
  PACK ++ (operation.drop 3).take 2 ++ [10]

/-- Everything observable about one `_async_send_command` call: the returned
bytes or the raised exception, the byte strings written to the transport in
order, whether `writer.close()` ran before control returned, the duration
of the throttle suspension if any, and the client state afterwards. -/
structure SendResult where
  result : Except PyError ByteSeq
  writes : List ByteSeq
  closed : Bool
  slept : Option ℚ
  finalState : ClientState
deriving Repr

/-- `JVCProjectorClient._async_send_command(operation)`.  Follows the source
line by line: throttle; connect (only `ConnectionRefusedError` is converted
to `JVCCannotConnectError`, a timeout escapes as `asyncio.TimeoutError`);
read 5 bytes and compare with `PJ_OK`; write `PJREQ`; read 5 bytes and
compare with `PJACK`; write the operation; read `len(ack)` bytes and
compare with the expected ack; for a `b"?"` header read up to 1024 further
bytes as the result; `writer.close()` and the `_last_command_time` update
happen only on this success path, every `raise` skips them. -/
def sendCommand (st : ClientState) (env : DeviceEnv) (operation : ByteSeq) :
    SendResult :=
  let slept := throttleSleep st.delaySeconds env.nowAtThrottle st.lastCommandTime
  match env.connect with
  | .refused => ⟨.error .jvcCannotConnect, [], false, slept, st⟩
  | .timedOut => ⟨.error .asyncTimeout, [], false, slept, st⟩
  | .ok =>
    let greeting := (readChunk JVC_GREETING.length env.reads).1
    let reads1 := (readChunk JVC_GREETING.length env.reads).2
    if greeting = JVC_GREETING then
      let ackTok := (readChunk JVC_ACK.length reads1).1
      let reads2 := (readChunk JVC_ACK.length reads1).2
      if ackTok = JVC_ACK then
        let ack := expectedAck operation
        let ACK := (readChunk ack.length reads2).1
        let reads3 := (readChunk ack.length reads2).2
        if ACK = ack then
          let result :=
            if operation.take 1 = bstr "?" then (readChunk 1024 reads3).1 else []
          ⟨.ok result, [JVC_REQ, operation], true, slept,
            { st with lastCommandTime := env.nowAtFinish }⟩
        else
          ⟨.error .jvcCommunication, [JVC_REQ, operation], false, slept, st⟩
      else
        ⟨.error .jvcHandshake, [JVC_REQ], false, slept, st⟩
    else
      ⟨.error .jvcHandshake, [], false, slept, st⟩

/-- The greeting bytes `_async_send_command` obtains from its first
`reader.read(len(JVC_GREETING))`. -/
def greetingRead (reads : List ByteSeq) : ByteSeq :=
  (readChunk JVC_GREETING.length reads).1

/-- The bytes obtained from the second read,
`reader.read(len(JVC_ACK))`, compared against `PJACK`. -/
def ackTokenRead (reads : List ByteSeq) : ByteSeq :=
  (readChunk JVC_ACK.length (readChunk JVC_GREETING.length reads).2).1

/-- The bytes obtained from the third read, `reader.read(len(ack))`,
compared against the expected acknowledgement of `op`. -/
def commandAckRead (reads : List ByteSeq) (op : ByteSeq) : ByteSeq :=
  (readChunk (expectedAck op).length
    (readChunk JVC_ACK.length (readChunk JVC_GREETING.length reads).2).2).1

/-- The bytes obtained from the fourth read, `reader.read(1024)`, returned
as the result of a reference query. -/
def responseRead (reads : List ByteSeq) (op : ByteSeq) : ByteSeq :=
  (readChunk 1024 (readChunk (expectedAck op).length
    (readChunk JVC_ACK.length (readChunk JVC_GREETING.length reads).2).2).2).1

deriving instance DecidableEq for Except

/-- `True` exactly on `Except.ok`: whether a call returned rather than
raised. -/
def exceptIsOk (r : Except PyError ByteSeq) : Bool :=
  match r with
  | .ok _ => true
  | .error _ => false

/-- Everything observable about one `async_command` call: the returned
boolean or the raised exception, the payload handed to
`_async_send_command` if it was called at all, the transport writes, and
the client state afterwards. -/
structure CommandResult where
  result : Except PyError Bool
  sent : Option ByteSeq
  writes : List ByteSeq
  finalState : ClientState
deriving Repr

deriving instance DecidableEq for CommandResult

/-- `JVCProjectorClient.async_command(command_string)`: when
`hasattr(Commands, command_string)` is false, return `False` at once (no
connection, no writes, no state change); otherwise evaluate
`Commands[command_string].value` — which raises `KeyError` when the name
is a class attribute but not a member — then run `_async_send_command` on
the member's value and return `True` if it returns, propagating its
exception otherwise. -/
def asyncCommand (st : ClientState) (env : DeviceEnv) (commandString : String) :
    CommandResult :=
  if hasattrCommands commandString then
    match Commands.lookup commandString with
    | none => ⟨.error .keyError, none, [], st⟩
    | some payload =>
      let r := sendCommand st env payload
      ⟨r.result.map (fun _ => true), some payload, r.writes, r.finalState⟩
  else
    ⟨.ok false, none, [], st⟩

/-- The Python slice `l[5:-1]`: the elements whose index lies in
`[5, len l - 1)`, i.e. drop the first 5 elements of the first `len l - 1`
elements (both bounds clamp, exactly as Python slicing does). -/
def pySliceHeaderEnd (l : ByteSeq) : ByteSeq :=
  (l.take (l.length - 1)).drop 5

/-- `bytes.decode("ascii")`: succeeds iff every byte is below 128, yielding
the corresponding character string; otherwise `UnicodeDecodeError`. -/
def asciiDecode (bs : ByteSeq) : Option String :=
  if bs.all (fun b => b < 128) then some (String.mk (bs.map Char.ofNat))
  else none

/-- `JVCProjectorClient.async_get_mac()`: run the `get_mac` query; on a
truthy (non-empty) response return `mac[5:-1].decode("ascii")`, otherwise
raise `JVCCommunicationError`. -/
def asyncGetMac (st : ClientState) (env : DeviceEnv) :
    Except PyError String × ClientState :=
  let r := sendCommand st env cmd_get_mac
  match r.result with
  | .error e => (.error e, r.finalState)
  | .ok mac =>
    if mac = [] then (.error .jvcCommunication, r.finalState)
    else
      match asciiDecode (pySliceHeaderEnd mac) with
      | some s => (.ok s, r.finalState)
      | none => (.error .unicodeDecodeError, r.finalState)

/-- `JVCProjectorClient.async_get_model()`: run the `model` query; on a
truthy (non-empty) response return `model[5:-1].decode("ascii")`, otherwise
raise `JVCCommunicationError`. -/
def asyncGetModel (st : ClientState) (env : DeviceEnv) :
    Except PyError String × ClientState :=
  let r := sendCommand st env cmd_model
  match r.result with
  | .error e => (.error e, r.finalState)
  | .ok model =>
    if model = [] then (.error .jvcCommunication, r.finalState)
    else
      match asciiDecode (pySliceHeaderEnd model) with
      | some s => (.ok s, r.finalState)
      | none => (.error .unicodeDecodeError, r.finalState)

/-- `PowerStates(message).name` as intended by `async_power_state`: decode
the response bytes through the status catalog (defined as `Responses` in
`jvccommands.py`); a value matching no member raises `ValueError`. -/
def powerStateName (msg : ByteSeq) : Except PyError String :=
  match Responses.decode msg with
  | some n => .ok n
  | none => .error .valueError

/-- `JVCProjectorClient.async_power_state()`: run the `power_status` query
and decode the response through the status catalog. -/
def asyncPowerState (st : ClientState) (env : DeviceEnv) :
    Except PyError String × ClientState :=
  let r := sendCommand st env cmd_power_status
  match r.result with
  | .error e => (.error e, r.finalState)
  | .ok msg => (powerStateName msg, r.finalState)

/-- The list `on = ["lamp_on", "reserved"]` from `async_is_on`. -/
def onStates : List String := ["lamp_on", "reserved"]

/-- `JVCProjectorClient.async_is_on()`: `await self.async_power_state() in
on`. -/
def asyncIsOn (st : ClientState) (env : DeviceEnv) :
    Except PyError Bool × ClientState :=
  let r := asyncPowerState st env
  (r.1.map (fun n => onStates.contains n), r.2)

/-! Helper lemmas shared by the claim theorems. -/

theorem throttleSleep_zero (a b : ℚ) : throttleSleep 0 a b = none := by
  simp [throttleSleep]

theorem throttleSleep_of_lt (d now last : ℚ) (hd : d ≠ 0)
    (h : now - last < d) :
    throttleSleep d now last = some (d - (now - last)) := by
  simp [throttleSleep, hd, h]

theorem throttleSleep_of_ge (d now last : ℚ) (hd : d ≠ 0)
    (h : d ≤ now - last) :
    throttleSleep d now last = none := by
  unfold throttleSleep
  rw [if_neg hd]
  show (if d > now - last then some (d - (now - last)) else none) = none
  exact if_neg (not_lt.mpr h)

theorem pySliceHeaderEnd_eq (l : ByteSeq) :
    pySliceHeaderEnd l = (l.drop 5).dropLast := by
  unfold pySliceHeaderEnd
  rw [List.dropLast_eq_take, List.drop_take, List.length_drop]
  congr 1

theorem readChunk_fst_length_le (n : Nat) (reads : List ByteSeq) :
    (readChunk n reads).1.length ≤ n := by
  cases reads with
  | nil => simp [readChunk]
  | cons c rest => simp [readChunk]

/-- Case analysis of `_async_send_command`: either the call returns a value,
`writer.close()` ran and the timestamp was updated — or it raised, the
transport was left open and the client state was left unchanged. -/
theorem sendCommand_cases (st : ClientState) (env : DeviceEnv) (op : ByteSeq) :
    (exceptIsOk (sendCommand st env op).result = true ∧
      (sendCommand st env op).closed = true ∧
      (sendCommand st env op).finalState =
        { st with lastCommandTime := env.nowAtFinish }) ∨
    (exceptIsOk (sendCommand st env op).result = false ∧
      (sendCommand st env op).closed = false ∧
      (sendCommand st env op).finalState = st) := by
  rcases env with ⟨c, rds, t1, t2⟩
  cases c with
  | ok =>
    dsimp only [sendCommand]
    by_cases h1 : (readChunk JVC_GREETING.length rds).1 = JVC_GREETING
    · rw [if_pos h1]
      by_cases h2 :
          (readChunk JVC_ACK.length (readChunk JVC_GREETING.length rds).2).1 = JVC_ACK
      · rw [if_pos h2]
        by_cases h3 :
            (readChunk (expectedAck op).length
              (readChunk JVC_ACK.length (readChunk JVC_GREETING.length rds).2).2).1
              = expectedAck op
        · rw [if_pos h3]; left; exact ⟨rfl, rfl, rfl⟩
        · rw [if_neg h3]; right; exact ⟨rfl, rfl, rfl⟩
      · rw [if_neg h2]; right; exact ⟨rfl, rfl, rfl⟩
    · rw [if_neg h1]; right; exact ⟨rfl, rfl, rfl⟩
  | refused => right; exact ⟨rfl, rfl, rfl⟩
  | timedOut => right; exact ⟨rfl, rfl, rfl⟩

/-! Claim theorems. -/

/-- Claim C1, counterexample: on a wrong greeting (`XX_OK`) the exchange
aborts with a handshake error, yet the transport is NOT closed before
control returns — `writer.close()` is only reached on the success path, so
the claim that the transport is closed on every exit path is false. -/
theorem c1_close_counterexample :
    (sendCommand (initState "h" 20554 1 10 0)
      ⟨.ok, [bstr "XX_OK"], 0, 1⟩ cmd_power_on).result
      = .error .jvcHandshake ∧
    (sendCommand (initState "h" 20554 1 10 0)
      ⟨.ok, [bstr "XX_OK"], 0, 1⟩ cmd_power_on).closed = false := by
  decide

/-- Claim C1 (amended): the transport is closed before control returns to
the caller exactly when the exchange succeeds; when it aborts with a
handshake error or a communication error (or a connect failure), the
exception propagates without the transport being closed. -/
theorem c1_closed_iff_success (st : ClientState) (env : DeviceEnv)
    (op : ByteSeq) :
    (sendCommand st env op).closed = exceptIsOk (sendCommand st env op).result := by
  rcases sendCommand_cases st env op with ⟨h1, h2, _⟩ | ⟨h1, h2, _⟩ <;>
    rw [h1, h2]

/-- Claim C2, counterexample: when the connect attempt exceeds the
configured connect timeout, the call raises `asyncio.TimeoutError`
(uncaught, since the `except` clause only catches
`ConnectionRefusedError`), not the dedicated connect error — so the claim
that a timeout yields the connect error is false. -/
theorem c2_timeout_counterexample :
    (sendCommand (initState "h" 20554 1 10 0)
      ⟨.timedOut, [], 0, 1⟩ cmd_power_on).result = .error .asyncTimeout ∧
    (sendCommand (initState "h" 20554 1 10 0)
      ⟨.timedOut, [], 0, 1⟩ cmd_power_on).result ≠ .error .jvcCannotConnect := by
  decide

/-- Claim C2 (amended): a refused transport connection raises the dedicated
connect error (`JVCCannotConnectError`); a connect attempt exceeding the
configured timeout instead raises the raw `asyncio.TimeoutError`, which is
distinct from the connect error. -/
theorem c2_connect_refused_vs_timeout (st : ClientState)
    (reads : List ByteSeq) (t1 t2 : ℚ) (op : ByteSeq) :
    (sendCommand st ⟨.refused, reads, t1, t2⟩ op).result
      = .error .jvcCannotConnect ∧
    (sendCommand st ⟨.timedOut, reads, t1, t2⟩ op).result
      = .error .asyncTimeout ∧
    PyError.asyncTimeout ≠ PyError.jvcCannotConnect :=
  ⟨rfl, rfl, by decide⟩

/-- Claim C5: with a configured delay of zero, `_throttle` never suspends
(independently of any timestamps, which it does not read); with a positive
delay `d` and elapsed time `now - last` below `d`, it suspends for exactly
`d - (now - last)`; once at least `d` has elapsed it does not suspend. -/
theorem c5_throttle_spec (d now last : ℚ) :
    (∀ a b : ℚ, throttleSleep 0 a b = none) ∧
    (0 < d → now - last < d →
      throttleSleep d now last = some (d - (now - last))) ∧
    (0 < d → d ≤ now - last → throttleSleep d now last = none) :=
  ⟨fun a b => throttleSleep_zero a b,
   fun hd h => throttleSleep_of_lt d now last (ne_of_gt hd) h,
   fun hd h => throttleSleep_of_ge d now last (ne_of_gt hd) h⟩

/-- Witness for C5 at `d = 2`, `now = 1`, `last = 0`. -/
theorem c5_throttle_spec_witness :
    throttleSleep 2 1 0 = some (2 - (1 - 0)) :=
  (c5_throttle_spec 2 1 0).2.1 (by decide) (by simp)

/-- Claim C9: `_last_command_time` is updated (to the exchange-completion
instant) only when `_async_send_command` returns successfully; when it
raises a connect, handshake, or communication error, the whole client state
— the timestamp included — is left unchanged. -/
theorem c9_timestamp_frame (st : ClientState) (env : DeviceEnv)
    (op : ByteSeq) :
    (∀ e, (sendCommand st env op).result = .error e →
      (sendCommand st env op).finalState = st) ∧
    (∀ v, (sendCommand st env op).result = .ok v →
      (sendCommand st env op).finalState =
        { st with lastCommandTime := env.nowAtFinish }) := by
  rcases sendCommand_cases st env op with ⟨h1, _, h3⟩ | ⟨h1, _, h3⟩
  · constructor
    · intro e he
      rw [he] at h1
      exact absurd h1 (by simp [exceptIsOk])
    · intro v _
      exact h3
  · constructor
    · intro e _
      exact h3
    · intro v hv
      rw [hv] at h1
      exact absurd h1 (by simp [exceptIsOk])

/-- Witness for C9: a refused connection leaves the state unchanged. -/
theorem c9_timestamp_frame_witness :
    (sendCommand (initState "h" 20554 1 10 0)
      ⟨.refused, [], 0, 1⟩ cmd_power_on).finalState
      = initState "h" 20554 1 10 0 :=
  (c9_timestamp_frame (initState "h" 20554 1 10 0)
    ⟨.refused, [], 0, 1⟩ cmd_power_on).1 .jvcCannotConnect (by decide)

/-- Claim C10: `__init__` sets `_last_command_time` to the construction
instant, so with a positive delay `d` the first command issued at a time
`t` less than `d` seconds after construction time `t0` is suspended by the
throttle (for the positive duration `d - (t - t0)`) even though no
exchange has ever completed. -/
theorem c10_first_command_throttled (host : String) (port : Nat)
    (d cts t0 t : ℚ) (hd : 0 < d) (_h0 : t0 ≤ t) (h : t - t0 < d) :
    throttleSleep (initState host port d cts t0).delaySeconds t
        (initState host port d cts t0).lastCommandTime
      = some (d - (t - t0)) ∧
    0 < d - (t - t0) := by
  constructor
  · exact throttleSleep_of_lt d t t0 (ne_of_gt hd) h
  · linarith

/-- Witness for C10 at construction time 0, first command at time 1,
delay 2. -/
theorem c10_first_command_throttled_witness :
    throttleSleep (initState "h" 20554 2 10 0).delaySeconds 1
        (initState "h" 20554 2 10 0).lastCommandTime
      = some (2 - (1 - 0)) ∧
    (0 : ℚ) < 2 - (1 - 0) :=
  c10_first_command_throttled "h" 20554 2 10 0 1 (by decide) (by decide)
    (by simp)

/-- Claim C3: over every transport read script, the handshake succeeds (the
call gets past the handshake stage, i.e. does not raise
`JVCHandshakeError`) iff the 5-byte greeting read equals `PJ_OK` and the
5-byte read after writing `PJREQ` equals `PJACK`; any other bytes
(including a short read) raise the handshake error, and then nothing
beyond the `PJREQ` token is ever written — in particular the command
payload is not. -/
theorem c3_handshake_iff (st : ClientState) (reads : List ByteSeq)
    (t1 t2 : ℚ) (op : ByteSeq) :
    ((greetingRead reads = JVC_GREETING ∧ ackTokenRead reads = JVC_ACK) ↔
      (sendCommand st ⟨.ok, reads, t1, t2⟩ op).result
        ≠ .error .jvcHandshake) ∧
    ((sendCommand st ⟨.ok, reads, t1, t2⟩ op).result
        = .error .jvcHandshake →
      (sendCommand st ⟨.ok, reads, t1, t2⟩ op).writes = [] ∨
        (sendCommand st ⟨.ok, reads, t1, t2⟩ op).writes = [JVC_REQ]) := by
  dsimp only [sendCommand, greetingRead, ackTokenRead]
  by_cases h1 : (readChunk JVC_GREETING.length reads).1 = JVC_GREETING
  · rw [if_pos h1]
    by_cases h2 :
        (readChunk JVC_ACK.length (readChunk JVC_GREETING.length reads).2).1
          = JVC_ACK
    · rw [if_pos h2]
      by_cases h3 :
          (readChunk (expectedAck op).length
            (readChunk JVC_ACK.length (readChunk JVC_GREETING.length reads).2).2).1
            = expectedAck op
      · rw [if_pos h3]
        exact ⟨by simp [h1, h2], fun h => by cases h⟩
      · rw [if_neg h3]
        exact ⟨by simp [h1, h2], fun h => by cases h⟩
    · rw [if_neg h2]
      exact ⟨by simp [h2], fun _ => Or.inr rfl⟩
  · rw [if_neg h1]
    exact ⟨by simp [h1], fun _ => Or.inl rfl⟩

/-- Witness for C3: a wrong greeting raises the handshake error, and the
command payload was never written. -/
theorem c3_handshake_iff_witness :
    (sendCommand (initState "h" 20554 1 10 0)
      ⟨.ok, [bstr "XX_OK"], 0, 1⟩ cmd_power_on).writes = [] ∨
    (sendCommand (initState "h" 20554 1 10 0)
      ⟨.ok, [bstr "XX_OK"], 0, 1⟩ cmd_power_on).writes = [JVC_REQ] :=
  (c3_handshake_iff (initState "h" 20554 1 10 0) [bstr "XX_OK"] 0 1
    cmd_power_on).2 (by decide)

/-- Claim C4: for a command payload of at least 5 bytes, the expected
acknowledgement — preamble `\x06\x89\x01`, payload bytes 3–4, newline — is
6 bytes long; after a successful handshake, if the bytes read equal it
then an operation command (header `!`) returns the empty result and a
reference query (header `?`) returns the up-to-1024 bytes read next,
while any difference raises `JVCCommunicationError`. -/
theorem c4_execute_ack (st : ClientState) (reads : List ByteSeq)
    (t1 t2 : ℚ) (op : ByteSeq) (hlen : 5 ≤ op.length)
    (hg : greetingRead reads = JVC_GREETING)
    (ha : ackTokenRead reads = JVC_ACK) :
    (expectedAck op).length = 6 ∧
    (commandAckRead reads op = expectedAck op →
      (op.take 1 = bstr "!" →
        (sendCommand st ⟨.ok, reads, t1, t2⟩ op).result = .ok []) ∧
      (op.take 1 = bstr "?" →
        (sendCommand st ⟨.ok, reads, t1, t2⟩ op).result
            = .ok (responseRead reads op) ∧
          (responseRead reads op).length ≤ 1024)) ∧
    (commandAckRead reads op ≠ expectedAck op →
      (sendCommand st ⟨.ok, reads, t1, t2⟩ op).result
        = .error .jvcCommunication) := by
  refine ⟨?_, ?_, ?_⟩
  · simp [expectedAck, PACK, List.length_take]
    omega
  · intro hAck
    dsimp only [sendCommand, greetingRead, ackTokenRead, commandAckRead,
      responseRead] at *
    rw [if_pos hg, if_pos ha, if_pos hAck]
    constructor
    · intro hBang
      have hq : ¬ op.take 1 = bstr "?" := by
        rw [hBang]; decide
      rw [if_neg hq]
    · intro hQuery
      rw [if_pos hQuery]
      exact ⟨rfl, readChunk_fst_length_le 1024 _⟩
  · intro hAck
    dsimp only [sendCommand, greetingRead, ackTokenRead, commandAckRead] at *
    rw [if_pos hg, if_pos ha, if_neg hAck]

/-- Witness for C4: the spec's own scenario — greeting `PJ_OK`, token
`PJACK`, then for `power_on` the exact expected ack — yields the empty
result with no error. -/
theorem c4_execute_ack_witness :
    (sendCommand (initState "h" 20554 1 10 0)
      ⟨.ok, [bstr "PJ_OK", bstr "PJACK", expectedAck cmd_power_on], 0, 1⟩
      cmd_power_on).result = .ok [] :=
  ((c4_execute_ack (initState "h" 20554 1 10 0)
      [bstr "PJ_OK", bstr "PJACK", expectedAck cmd_power_on] 0 1 cmd_power_on
      (by decide) (by decide) (by decide)).2.1 (by decide)).1 (by decide)

/-- Claim C6: whatever response bytes the device returns from the `get_mac`
or `model` query, `async_get_mac` and `async_get_model` strip exactly the
5 leading bytes and the 1 trailing byte (Python `[5:-1]`) and ASCII-decode
the remainder; an empty response raises `JVCCommunicationError` instead. -/
theorem c6_get_mac_model_strip (st : ClientState) (env : DeviceEnv) :
    (∀ resp, (sendCommand st env cmd_get_mac).result = .ok resp →
      ((resp = [] → (asyncGetMac st env).1 = .error .jvcCommunication) ∧
       (∀ s, resp ≠ [] → asciiDecode ((resp.drop 5).dropLast) = some s →
         (asyncGetMac st env).1 = .ok s))) ∧
    (∀ resp, (sendCommand st env cmd_model).result = .ok resp →
      ((resp = [] → (asyncGetModel st env).1 = .error .jvcCommunication) ∧
       (∀ s, resp ≠ [] → asciiDecode ((resp.drop 5).dropLast) = some s →
         (asyncGetModel st env).1 = .ok s))) := by
  constructor
  · intro resp h
    dsimp only [asyncGetMac]
    rw [h]
    dsimp only
    constructor
    · intro he
      rw [if_pos he]
    · intro s hne hdec
      rw [if_neg hne, pySliceHeaderEnd_eq, hdec]
  · intro resp h
    dsimp only [asyncGetModel]
    rw [h]
    dsimp only
    constructor
    · intro he
      rw [if_pos he]
    · intro s hne hdec
      rw [if_neg hne, pySliceHeaderEnd_eq, hdec]

/-- Witness for C6: a `get_mac` exchange whose response is
`@\x89\x01MAabc\n` yields the ASCII string of the middle bytes, `abc`. -/
theorem c6_get_mac_model_strip_witness :
    (asyncGetMac (initState "h" 20554 1 10 0)
      ⟨.ok, [bstr "PJ_OK", bstr "PJACK", expectedAck cmd_get_mac,
        RES ++ bstr "MAabc" ++ [10]], 0, 1⟩).1 = .ok "abc" :=
  ((c6_get_mac_model_strip (initState "h" 20554 1 10 0)
      ⟨.ok, [bstr "PJ_OK", bstr "PJACK", expectedAck cmd_get_mac,
        RES ++ bstr "MAabc" ++ [10]], 0, 1⟩).1
    (RES ++ bstr "MAabc" ++ [10]) (by decide)).2 "abc" (by decide) (by decide)

/-- Claim C7 (intended behavior): decoding through the status catalog of
`jvccommands.py` maps `@\x89\x01PW1\n` to `lamp_on` and `@\x89\x01PW0\n`
to `standby`, raises `ValueError` on bytes matching no catalog entry, and
`async_is_on` reports exactly membership of the decoded name in
`["lamp_on", "reserved"]` — so true for `lamp_on`/`reserved` and false
for `standby`/`cooling`/`emergency`.  (The source as written cannot reach
this code: `jvcprojector.py` imports the catalog under the name
`PowerStates`, which `jvccommands.py` does not define.) -/
theorem c7_power_state_catalog :
    powerStateName (RES ++ bstr "PW1\n") = .ok "lamp_on" ∧
    powerStateName (RES ++ bstr "PW0\n") = .ok "standby" ∧
    (∀ msg, Responses.decode msg = none →
      powerStateName msg = .error .valueError) ∧
    (onStates.contains "lamp_on" = true ∧
      onStates.contains "reserved" = true ∧
      onStates.contains "standby" = false ∧
      onStates.contains "cooling" = false ∧
      onStates.contains "emergency" = false) ∧
    (∀ st env n, (asyncPowerState st env).1 = .ok n →
      (asyncIsOn st env).1 = .ok (onStates.contains n)) := by
  refine ⟨by decide, by decide, ?_, by decide, ?_⟩
  · intro msg h
    unfold powerStateName
    rw [h]
  · intro st env n h
    dsimp only [asyncIsOn]
    rw [h]
    rfl

/-- Witness for C7: no catalog entry matches the empty response, and a
concrete `power_status` exchange answering `@\x89\x01PW1\n` makes
`async_is_on` report true. -/
theorem c7_power_state_catalog_witness :
    powerStateName [] = .error .valueError ∧
    (asyncIsOn (initState "h" 20554 1 10 0)
      ⟨.ok, [bstr "PJ_OK", bstr "PJACK", expectedAck cmd_power_status,
        RES ++ bstr "PW1\n"], 0, 1⟩).1 = .ok true :=
  ⟨c7_power_state_catalog.2.2.1 [] (by decide),
   c7_power_state_catalog.2.2.2.2 (initState "h" 20554 1 10 0)
     ⟨.ok, [bstr "PJ_OK", bstr "PJACK", expectedAck cmd_power_status,
       RES ++ bstr "PW1\n"], 0, 1⟩ "lamp_on" (by decide)⟩

/-- A member lookup hit implies `hasattr(Commands, name)` is true. -/
theorem hasattrCommands_of_lookup (name : String) (p : ByteSeq)
    (h : Commands.lookup name = some p) : hasattrCommands name = true := by
  unfold hasattrCommands
  rw [h]
  rfl

/-- Claim C8, counterexample: `"mro"` is not a registered catalog command,
yet `async_command("mro")` does not return `False` — `hasattr(Commands,
"mro")` is true (`mro` is a method of `type`), so the code evaluates
`Commands["mro"]`, which raises `KeyError`. -/
theorem c8_named_command_counterexample :
    Commands.lookup "mro" = none ∧
    (asyncCommand (initState "h" 20554 1 10 0) ⟨.ok, [], 0, 1⟩ "mro").result
      = .error .keyError ∧
    (asyncCommand (initState "h" 20554 1 10 0) ⟨.ok, [], 0, 1⟩ "mro").result
      ≠ .ok false := by
  decide

/-- Claim C8 (amended): `async_command(name)` with a name that is not an
attribute of the `Commands` class at all returns `False` having opened no
connection, written no bytes and changed no state; with a registered
member name it hands the member's payload to `_async_send_command` and
returns `True` when that exchange returns; but with a non-member class
attribute name (such as `mro` or `__doc__`) it raises `KeyError` instead
of returning `False` — still without contacting the device. -/
theorem c8_named_command (st : ClientState) (env : DeviceEnv)
    (name : String) :
    (hasattrCommands name = false →
      asyncCommand st env name = ⟨.ok false, none, [], st⟩) ∧
    (∀ p, Commands.lookup name = some p →
      (asyncCommand st env name).sent = some p ∧
      (∀ v, (sendCommand st env p).result = .ok v →
        (asyncCommand st env name).result = .ok true)) ∧
    (hasattrCommands name = true → Commands.lookup name = none →
      asyncCommand st env name = ⟨.error .keyError, none, [], st⟩) := by
  refine ⟨?_, ?_, ?_⟩
  · intro h
    unfold asyncCommand
    rw [if_neg]
    rw [h]
    exact Bool.false_ne_true
  · intro p h
    unfold asyncCommand
    rw [if_pos (hasattrCommands_of_lookup name p h), h]
    refine ⟨rfl, ?_⟩
    intro v hv
    dsimp only
    rw [hv]
    rfl
  · intro h1 h2
    unfold asyncCommand
    rw [if_pos h1, h2]

/-- Witness for C8: a name that is no attribute at all returns `False` with
nothing sent; the registered `power_on` command on a successful exchange
returns `True`; the non-member attribute `__doc__` raises `KeyError`. -/
theorem c8_named_command_witness :
    asyncCommand (initState "h" 20554 1 10 0) ⟨.ok, [], 0, 1⟩ "not_a_command"
      = ⟨.ok false, none, [], initState "h" 20554 1 10 0⟩ ∧
    (asyncCommand (initState "h" 20554 1 10 0)
      ⟨.ok, [bstr "PJ_OK", bstr "PJACK", expectedAck cmd_power_on], 0, 1⟩
      "power_on").result = .ok true ∧
    asyncCommand (initState "h" 20554 1 10 0) ⟨.ok, [], 0, 1⟩ "__doc__"
      = ⟨.error .keyError, none, [], initState "h" 20554 1 10 0⟩ :=
  ⟨(c8_named_command (initState "h" 20554 1 10 0) ⟨.ok, [], 0, 1⟩
      "not_a_command").1 (by decide),
   ((c8_named_command (initState "h" 20554 1 10 0)
      ⟨.ok, [bstr "PJ_OK", bstr "PJACK", expectedAck cmd_power_on], 0, 1⟩
      "power_on").2.1 cmd_power_on (by decide)).2 [] (by decide),
   (c8_named_command (initState "h" 20554 1 10 0) ⟨.ok, [], 0, 1⟩
      "__doc__").2.2 (by decide) (by decide)⟩

